import Mathlib

/-!
Verification of the session-lifecycle core
(`services/orchest-api/app/app/core/sessions/_core.py`).

The file shallowly embeds the module: the cluster control plane is modelled
as a response oracle (`Oracle`), every lifecycle operation is a function
that returns its outcome (`Except Err _`) together with the sequence of
platform interactions it issued (`List Ev`), and the unbounded
readiness-polling loops take a fuel argument, returning `none` when the
fuel is exhausted (the Python loop would still be spinning).
-/

namespace Sessions

/-- `SessionType` enum from `_core.py`: `INTERACTIVE = "interactive"`,
`NONINTERACTIVE = "noninteractive"`. -/
inductive SessionType
  | interactive
  | noninteractive
deriving DecidableEq, Repr

/-- `SessionType.value`: the string payload of the enum member. -/
def SessionType.value : SessionType → String
  | .interactive => "interactive"
  | .noninteractive => "noninteractive"

/-- Modelled from the spec: the `_manifests` module is not under `src/`;
only the identity of each workload manifest matters to the claims, so a
manifest is represented by the workload it describes.  The internal
workloads are the memory-server, the session-sidecar, the
jupyter-enterprise-gateway (the notebook-kernel gateway) and the
jupyter-server (the notebook server); a user workload carries its
service name. -/
inductive WorkloadName
  | memoryServer
  | sessionSidecar
  | jupyterEG
  | jupyterServer
  | user (name : String)
deriving DecidableEq, Repr

/-- One entry of the `services` mapping of the session config: only the
fields `launch` consults (`scope`) plus the fields named by the claims
(`name`, `ports`) are carried. -/
structure ServiceConfig where
  name : String
  scope : List String
  ports : List Nat
deriving DecidableEq, Repr

/-- The session configuration, reduced to the entry the lifecycle logic
branches on: the ordered `services` mapping (Python dicts preserve
insertion order, so a list of configs models `.values()`). -/
structure SessionConfig where
  services : List ServiceConfig
deriving DecidableEq, Repr

/-- Result of one `read_namespace_status` call: either a status object
with a `phase` string, or a raised `ApiException` with an HTTP status. -/
inductive NsRead
  | phase (p : String)
  | apiError (status : Nat)
deriving DecidableEq, Repr

/-- Result of one `read_namespaced_deployment_status` call:
`status.available_replicas` and `spec.replicas`, both nullable in the
Kubernetes client. -/
structure DeplStatus where
  available : Option Nat
  replicas : Option Nat
deriving DecidableEq, Repr

/-- One record of the kernels listing returned by the jupyter-server
endpoint; only `execution_state` is consumed by the code (absent keys
read as `none`, matching `dict.get`). -/
structure Kernel where
  execution_state : Option String
deriving DecidableEq, Repr

/-- Errors the module can raise. -/
inductive Err
  /-- A re-raised `ApiException` with its HTTP status. -/
  | apiErr (status : Nat)
  /-- `Exception("Could not create namespace ...")` after 120 polls. -/
  | nsCreateTimeout
  /-- `errors.SessionCleanupFailedError` after 1000 polls. -/
  | sessionCleanupFailed
  /-- `ValueError("Invalid session type ...")`. -/
  | invalidSessionType
  /-- A `requests` transport or parse failure in `has_busy_kernels`. -/
  | httpErr (status : Nat)
deriving DecidableEq, Repr

/-- Platform interactions, in the order the module issues them.  Sleep
durations are in the time units of the source (`time.sleep(0.5)` etc.),
and `httpGet` records the request timeout. -/
inductive Ev
  | createNs
  | readNs
  | createDepl (n : WorkloadName)
  | createSvc (n : WorkloadName)
  | readDepl (n : WorkloadName)
  | abortCheck
  | sleep (d : ℚ)
  | deleteNs
  | patchScale (n : WorkloadName) (replicas : Option Nat)
  | httpGet (timeout : ℚ)
deriving DecidableEq, Repr

/-- The response oracle standing for the cluster control plane (and the
jupyter HTTP endpoint).  Repeated status reads are indexed by the number
of prior reads of the same object within the running operation; the
abort predicate is indexed by its invocation count. -/
structure Oracle where
  createNamespace : Except Nat Unit
  readNsStatus : Nat → NsRead
  createDeployment : WorkloadName → Except Nat Unit
  createService : WorkloadName → Except Nat Unit
  readDeplStatus : WorkloadName → Nat → DeplStatus
  deleteNamespace : Except Nat Unit
  patchScale : WorkloadName → Option Nat → Except Nat Unit
  shouldAbort : Nat → Bool
  httpGet : Except Nat (List Kernel)

/-- The bounded poll loop of `_create_session_k8s_namespace`
(`for _ in range(120)`), started with `fuel = 120` and `readIdx = 0`.
An `Active` phase breaks out; a non-`Active` phase and a 404
`ApiException` sleep 0.5 and retry; any other `ApiException` is
re-raised; exhaustion raises the namespace-creation error
(the `for ... else` branch). -/
def nsWaitLoop (o : Oracle) : Nat → Nat → Except Err Unit × List Ev
  | 0, _ => (.error .nsCreateTimeout, [])
  | fuel + 1, readIdx =>
    match o.readNsStatus readIdx with
    | .phase p =>
      if p = "Active" then (.ok (), [.readNs])
      else
        let r := nsWaitLoop o fuel (readIdx + 1)
        (r.1, .readNs :: .sleep (1/2) :: r.2)
    | .apiError s =>
      if s ≠ 404 then (.error (.apiErr s), [.readNs])
      else
        let r := nsWaitLoop o fuel (readIdx + 1)
        (r.1, .readNs :: .sleep (1/2) :: r.2)

/-- `_create_session_k8s_namespace`: submit the namespace manifest, then,
when `wait_ready`, poll until the phase is `Active` (at most 120 reads,
0.5 time units apart). -/
def create_session_k8s_namespace (o : Oracle) (wait_ready : Bool) :
    Except Err Unit × List Ev :=
  match o.createNamespace with
  | .error s => (.error (.apiErr s), [.createNs])
  | .ok () =>
    if wait_ready then
      let r := nsWaitLoop o 120 0
      (r.1, .createNs :: r.2)
    else (.ok (), [.createNs])

/-- The internal (Orchest) session-service deployment manifests compiled
by `launch`: always the memory-server; the session-sidecar only when the
`services` mapping is non-empty; for interactive sessions also the
jupyter-enterprise-gateway and jupyter-server deployments, in that
order. -/
def orchestDeploymentManifests (ty : SessionType) (cfg : SessionConfig) :
    List WorkloadName :=
  [.memoryServer]
    ++ (if cfg.services.isEmpty then [] else [.sessionSidecar])
    ++ (if ty = .interactive then [.jupyterEG, .jupyterServer] else [])

/-- The internal session-service k8s service manifests compiled by
`launch`: only interactive sessions register services, one for the
gateway and one for the jupyter-server. -/
def orchestServiceManifests (ty : SessionType) : List WorkloadName :=
  if ty = .interactive then [.jupyterEG, .jupyterServer] else []

/-- The user services of the config that are in scope for the session
type (`session_type.value not in service_config["scope"] → continue`),
in declaration order. -/
def userServicesInScope (ty : SessionType) (cfg : SessionConfig) :
    List ServiceConfig :=
  cfg.services.filter (fun s => ty.value ∈ s.scope)

/-- The user session-service deployment manifests compiled by `launch`:
one deployment per in-scope user service. -/
def userDeploymentManifests (ty : SessionType) (cfg : SessionConfig) :
    List WorkloadName :=
  (userServicesInScope ty cfg).map (fun s => .user s.name)

/-- The user session-service k8s service manifests compiled by `launch`:
one service per in-scope user service (`_get_user_service_deployment_service_manifest`
returns a pair). -/
def userServiceManifests (ty : SessionType) (cfg : SessionConfig) :
    List WorkloadName :=
  (userServicesInScope ty cfg).map (fun s => .user s.name)

/-- All deployment manifests of the session (the compiled workload set):
internal ones first, then the in-scope user ones. -/
def sessionDeploymentManifests (ty : SessionType) (cfg : SessionConfig) :
    List WorkloadName :=
  orchestDeploymentManifests ty cfg ++ userDeploymentManifests ty cfg

/-- All k8s service manifests of the session: internal ones first, then
the in-scope user ones. -/
def sessionServiceManifests (ty : SessionType) (cfg : SessionConfig) :
    List WorkloadName :=
  orchestServiceManifests ty ++ userServiceManifests ty cfg

/-- The submission loop over deployment manifests
(`create_namespaced_deployment` per manifest); a raised `ApiException`
propagates and ends `launch`. -/
def createDepls (o : Oracle) : List WorkloadName → Except Err Unit × List Ev
  | [] => (.ok (), [])
  | n :: ns =>
    match o.createDeployment n with
    | .error s => (.error (.apiErr s), [.createDepl n])
    | .ok () =>
      let r := createDepls o ns
      (r.1, .createDepl n :: r.2)

/-- The submission loop over k8s service manifests
(`create_namespaced_service` per manifest). -/
def createSvcs (o : Oracle) : List WorkloadName → Except Err Unit × List Ev
  | [] => (.ok (), [])
  | n :: ns =>
    match o.createService n with
    | .error s => (.error (.apiErr s), [.createSvc n])
    | .ok () =>
      let r := createSvcs o ns
      (r.1, .createSvc n :: r.2)

/-- The inner readiness loop of `launch` for one deployment: read the
status; while `available_replicas != replicas`, sample `should_abort`
(a `true` returns from the whole `launch`), sleep 1 time unit and read
again.  Returns the aborted flag, the trace, and the abort-counter value
after the loop; `none` when the fuel runs out with the Python loop still
spinning. -/
def waitDeplReady (o : Oracle) (n : WorkloadName) :
    Nat → Nat → Nat → Option (Bool × List Ev × Nat) :=
  fun fuel readIdx abortIdx =>
    let st := o.readDeplStatus n readIdx
    if st.available = st.replicas then some (false, [.readDepl n], abortIdx)
    else if o.shouldAbort abortIdx then
      some (true, [.readDepl n, .abortCheck], abortIdx + 1)
    else
      match fuel with
      | 0 => none
      | fuel + 1 =>
        (waitDeplReady o n fuel (readIdx + 1) (abortIdx + 1)).map
          (fun r => (r.1, .readDepl n :: .abortCheck :: .sleep 1 :: r.2.1, r.2.2))

/-- The readiness loop of `launch` over all submitted deployments (user
ones first, then internal ones, as in the source); an abort
short-circuits the remaining deployments. -/
def waitAllReady (o : Oracle) :
    List WorkloadName → Nat → Nat → Option (Bool × List Ev)
  | [], _, _ => some (false, [])
  | n :: ns, fuel, abortIdx =>
    match waitDeplReady o n fuel 0 abortIdx with
    | none => none
    | some (true, t, _) => some (true, t)
    | some (false, t, abortIdx') =>
      (waitAllReady o ns fuel abortIdx').map (fun r => (r.1, t ++ r.2))

/-- `launch`: create the namespace and wait for it to be active, compile
the manifests, submit internal deployments, internal services, user
deployments, user services, then poll every deployment until
`available_replicas == spec.replicas`, sampling `should_abort` after
each not-ready observation.  Both an abort and full readiness return
`None` (here `.ok ()`). -/
def launch (o : Oracle) (ty : SessionType) (cfg : SessionConfig)
    (fuel : Nat) : Option (Except Err Unit × List Ev) :=
  let ns := create_session_k8s_namespace o true
  match ns.1 with
  | .error e => some (.error e, ns.2)
  | .ok () =>
    if ty = .interactive ∨ ty = .noninteractive then
      let oD := orchestDeploymentManifests ty cfg
      let oS := orchestServiceManifests ty
      let uD := userDeploymentManifests ty cfg
      let uS := userServiceManifests ty cfg
      let c1 := createDepls o oD
      match c1.1 with
      | .error e => some (.error e, ns.2 ++ c1.2)
      | .ok () =>
        let c2 := createSvcs o oS
        match c2.1 with
        | .error e => some (.error e, ns.2 ++ c1.2 ++ c2.2)
        | .ok () =>
          let c3 := createDepls o uD
          match c3.1 with
          | .error e => some (.error e, ns.2 ++ c1.2 ++ c2.2 ++ c3.2)
          | .ok () =>
            let c4 := createSvcs o uS
            match c4.1 with
            | .error e => some (.error e, ns.2 ++ c1.2 ++ c2.2 ++ c3.2 ++ c4.2)
            | .ok () =>
              match waitAllReady o (uD ++ oD) fuel 0 with
              | none => none
              | some (_, tw) =>
                some (.ok (), ns.2 ++ c1.2 ++ c2.2 ++ c3.2 ++ c4.2 ++ tw)
    else some (.error .invalidSessionType, ns.2)

/-- The bounded poll loop of `cleanup_resources` (`for _ in range(1000)`):
a successful status read means the namespace is still there, so sleep 1
and retry; a 404 `ApiException` breaks out (fully gone); any other
`ApiException` is re-raised; exhaustion raises
`SessionCleanupFailedError`. -/
def cleanupWaitLoop (o : Oracle) : Nat → Nat → Except Err Unit × List Ev
  | 0, _ => (.error .sessionCleanupFailed, [])
  | fuel + 1, readIdx =>
    match o.readNsStatus readIdx with
    | .phase _ =>
      let r := cleanupWaitLoop o fuel (readIdx + 1)
      (r.1, .readNs :: .sleep 1 :: r.2)
    | .apiError s =>
      if s = 404 then (.ok (), [.readNs])
      else (.error (.apiErr s), [.readNs])

/-- `cleanup_resources`: delete the namespace; when `wait_for_completion`,
poll the namespace status (at most 1000 reads, 1 time unit apart) until
a read reports 404. -/
def cleanup_resources (o : Oracle) (wait_for_completion : Bool) :
    Except Err Unit × List Ev :=
  match o.deleteNamespace with
  | .error s => (.error (.apiErr s), [.deleteNs])
  | .ok () =>
    if wait_for_completion then
      let r := cleanupWaitLoop o 1000 0
      (r.1, .deleteNs :: r.2)
    else (.ok (), [.deleteNs])

/-- `shutdown`: delegates to `cleanup_resources`. -/
def shutdown (o : Oracle) (wait_for_completion : Bool) :
    Except Err Unit × List Ev :=
  cleanup_resources o wait_for_completion

/-- `has_busy_kernels`: one GET against the jupyter-server kernels
endpoint with a 2-time-unit timeout, returning whether any returned
record has `execution_state == "busy"`. -/
def has_busy_kernels (o : Oracle) : Except Err Bool × List Ev :=
  match o.httpGet with
  | .error s => (.error (.httpErr s), [.httpGet 2])
  | .ok kernels =>
    (.ok (kernels.any (fun k => k.execution_state = some "busy")),
     [.httpGet 2])

/-- The optional readiness loop of `restart_session_service`: read the
status; while `available_replicas != spec.replicas`, sleep 1 and read
again (no abort hook, no ceiling — hence the fuel). -/
def restartWaitLoop (o : Oracle) (n : WorkloadName) :
    Nat → Nat → Option (List Ev) :=
  fun fuel readIdx =>
    let st := o.readDeplStatus n readIdx
    if st.available = st.replicas then some [.readDepl n]
    else
      match fuel with
      | 0 => none
      | fuel + 1 =>
        (restartWaitLoop o n fuel (readIdx + 1)).map
          (fun t => .readDepl n :: .sleep 1 :: t)

/-- `restart_session_service`: read the deployment's `spec.replicas`,
patch the scale to 0, patch it back to the old count, and optionally
wait for readiness. -/
def restart_session_service (o : Oracle) (n : WorkloadName)
    (wait_for_readiness : Bool) (fuel : Nat) :
    Option (Except Err Unit × List Ev) :=
  let old := (o.readDeplStatus n 0).replicas
  match o.patchScale n (some 0) with
  | .error s =>
    some (.error (.apiErr s), [.readDepl n, .patchScale n (some 0)])
  | .ok () =>
    match o.patchScale n old with
    | .error s =>
      some (.error (.apiErr s),
        [.readDepl n, .patchScale n (some 0), .patchScale n old])
    | .ok () =>
      let t0 : List Ev := [.readDepl n, .patchScale n (some 0), .patchScale n old]
      if wait_for_readiness then
        (restartWaitLoop o n fuel 1).map (fun t => (.ok (), t0 ++ t))
      else some (.ok (), t0)

/-- The `finally` clause of Python: the finalizer always runs; when it
raises, its error replaces the pending result, otherwise the pending
result (value or re-raised error) stands. -/
def finallyResult (pending : Except Err Unit) (fin : Except Err Unit) :
    Except Err Unit :=
  match fin with
  | .error e => .error e
  | .ok () => pending

/-- `launch_noninteractive_session` (the `@contextmanager` helper):
`try: launch(...); yield` then `finally: shutdown(...)`.  The body of
the `with` block is abstracted as its outcome `body`; it only runs when
`launch` returned normally, and `shutdown` runs on every exit path. -/
def launch_noninteractive_session (o : Oracle) (cfg : SessionConfig)
    (fuel : Nat) (body : Except Err Unit) :
    Option (Except Err Unit × List Ev) :=
  match launch o .noninteractive cfg fuel with
  | none => none
  | some (rl, tl) =>
    let pending : Except Err Unit :=
      match rl with
      | .error e => .error e
      | .ok () => body
    let fin := shutdown o false
    some (finallyResult pending fin.1, tl ++ fin.2)

/-- A namespace-status read the provisioning loop retries on: a phase
other than `Active`, or a 404 `ApiException`. -/
def retryableRead : NsRead → Bool
  | .phase p => p ≠ "Active"
  | .apiError s => s = 404

/-- Events of the readiness-polling phase: deployment-status reads,
abort checks and sleeps. -/
def isPollEv : Ev → Bool
  | .readDepl _ => true
  | .abortCheck => true
  | .sleep _ => true
  | _ => false

/-- Scale-patching events. -/
def isPatchEv : Ev → Bool
  | .patchScale _ _ => true
  | _ => false

/-- Deployment-creation events. -/
def isCreateDepl : Ev → Bool
  | .createDepl _ => true
  | _ => false

/-- Whether a trace keeps all deployment creations before all k8s
service creations: no deployment creation occurs after a service
creation. -/
def deplsBeforeSvcs : List Ev → Bool
  | [] => true
  | .createSvc _ :: rest =>
    rest.all (fun e => !isCreateDepl e) && deplsBeforeSvcs rest
  | _ :: rest => deplsBeforeSvcs rest

/-- The session config of the spec scenario: a single user service
`svc-a` with scope `{interactive, noninteractive}` and ports `[80]`. -/
def svcAConfig : SessionConfig :=
  ⟨[⟨"svc-a", ["interactive", "noninteractive"], [80]⟩]⟩

/-- A platform where everything succeeds at once: the namespace is
`Active` on the first read, every create succeeds, every deployment is
ready on the first read, and the abort predicate never fires. -/
def readyOracle : Oracle :=
  ⟨.ok (), fun _ => .phase "Active", fun _ => .ok (), fun _ => .ok (),
   fun _ _ => ⟨some 1, some 1⟩, .ok (), fun _ _ => .ok (), fun _ => false,
   .ok []⟩

/-- Like `readyOracle`, but every deployment-status read reports
`available_replicas = None` against `spec.replicas = 1` (never ready)
and the abort predicate always answers true. -/
def abortingOracle : Oracle :=
  ⟨.ok (), fun _ => .phase "Active", fun _ => .ok (), fun _ => .ok (),
   fun _ _ => ⟨none, some 1⟩, .ok (), fun _ _ => .ok (), fun _ => true,
   .ok []⟩

/-- Like `readyOracle`, but the abort predicate always answers true
while every deployment is ready on its first read. -/
def readyAbortOracle : Oracle :=
  ⟨.ok (), fun _ => .phase "Active", fun _ => .ok (), fun _ => .ok (),
   fun _ _ => ⟨some 1, some 1⟩, .ok (), fun _ _ => .ok (), fun _ => true,
   .ok []⟩

/-- A platform where the session namespace does not exist: every
namespace-status read raises a 404 `ApiException`, and the
namespace-deletion request itself returns without error (the
idempotent-delete collaborator contract of the spec). -/
def goneOracle : Oracle :=
  ⟨.ok (), fun _ => .apiError 404, fun _ => .ok (), fun _ => .ok (),
   fun _ _ => ⟨some 1, some 1⟩, .ok (), fun _ _ => .ok (), fun _ => false,
   .ok []⟩

/-- A platform whose namespace reports `Pending` on the first two status
reads and `Active` from the third read on. -/
def pendingOracle : Oracle :=
  ⟨.ok (),
   fun i => if i < 2 then .phase "Pending" else .phase "Active",
   fun _ => .ok (), fun _ => .ok (), fun _ _ => ⟨some 1, some 1⟩, .ok (),
   fun _ _ => .ok (), fun _ => false, .ok []⟩

/-- A platform whose kernels endpoint returns one idle and one busy
kernel record. -/
def busyOracle : Oracle :=
  ⟨.ok (), fun _ => .phase "Active", fun _ => .ok (), fun _ => .ok (),
   fun _ _ => ⟨some 1, some 1⟩, .ok (), fun _ _ => .ok (), fun _ => false,
   .ok [⟨some "idle"⟩, ⟨some "busy"⟩]⟩

/-- When every deployment creation succeeds, the submission loop
succeeds and its trace is one creation event per manifest, in order. -/
theorem createDepls_all_ok (o : Oracle) (l : List WorkloadName)
    (h : ∀ n ∈ l, o.createDeployment n = .ok ()) :
    createDepls o l = (.ok (), l.map Ev.createDepl) := by
  induction l with
  | nil => rfl
  | cons n ns ih =>
    have hn : o.createDeployment n = .ok () := h n (by simp)
    have ihh := ih (fun m hm => h m (by simp [hm]))
    simp [createDepls, hn, ihh]

/-- When every service creation succeeds, the submission loop succeeds
and its trace is one creation event per manifest, in order. -/
theorem createSvcs_all_ok (o : Oracle) (l : List WorkloadName)
    (h : ∀ n ∈ l, o.createService n = .ok ()) :
    createSvcs o l = (.ok (), l.map Ev.createSvc) := by
  induction l with
  | nil => rfl
  | cons n ns ih =>
    have hn : o.createService n = .ok () := h n (by simp)
    have ihh := ih (fun m hm => h m (by simp [hm]))
    simp [createSvcs, hn, ihh]

/-- The namespace wait loop only reads the namespace status and
sleeps. -/
theorem nsWaitLoop_events (o : Oracle) :
    ∀ fuel readIdx, ∀ e ∈ (nsWaitLoop o fuel readIdx).2,
      e = Ev.readNs ∨ e = Ev.sleep (1/2) := by
  intro fuel
  induction fuel with
  | zero => intro i e he; simp [nsWaitLoop] at he
  | succ f ih =>
    intro i e he
    rw [nsWaitLoop] at he
    cases hr : o.readNsStatus i with
    | phase p =>
      rw [hr] at he
      by_cases hp : p = "Active"
      · simp [hp] at he; simp [he]
      · simp [hp] at he
        rcases he with h | h | h
        · simp [h]
        · simp [h]
        · exact ih (i + 1) e h
    | apiError s =>
      rw [hr] at he
      by_cases hs : s = 404
      · simp [hs] at he
        rcases he with h | h | h
        · simp [h]
        · simp [h]
        · exact ih (i + 1) e h
      · simp [hs] at he; simp [he]

/-- Namespace provisioning only creates the namespace, reads its status
and sleeps. -/
theorem create_ns_events (o : Oracle) (w : Bool) :
    ∀ e ∈ (create_session_k8s_namespace o w).2,
      e = Ev.createNs ∨ e = Ev.readNs ∨ e = Ev.sleep (1/2) := by
  intro e he
  unfold create_session_k8s_namespace at he
  cases hc : o.createNamespace with
  | error s => rw [hc] at he; simp at he; simp [he]
  | ok u =>
    cases u
    rw [hc] at he
    cases w with
    | false => simp at he; simp [he]
    | true =>
      simp at he
      rcases he with h | h
      · simp [h]
      · rcases nsWaitLoop_events o 120 0 e h with h2 | h2 <;> simp [h2]

/-- Every run of `cleanup_resources` opens with the namespace-deletion
request. -/
theorem cleanup_resources_head (o : Oracle) (w : Bool) :
    ∃ t, (cleanup_resources o w).2 = Ev.deleteNs :: t := by
  unfold cleanup_resources
  cases hc : o.deleteNamespace with
  | error s => exact ⟨[], rfl⟩
  | ok u => cases u; cases w <;> simp

/-- The optional readiness loop of `restart_session_service` issues no
scale updates. -/
theorem restartWaitLoop_no_patches (o : Oracle) (n : WorkloadName) :
    ∀ fuel readIdx t, restartWaitLoop o n fuel readIdx = some t →
      t.filter isPatchEv = [] := by
  intro fuel
  induction fuel with
  | zero =>
    intro i t h
    rw [restartWaitLoop] at h
    by_cases hr : (o.readDeplStatus n i).available = (o.readDeplStatus n i).replicas
    · simp [hr] at h; simp [← h, isPatchEv]
    · simp [hr] at h
  | succ f ih =>
    intro i t h
    rw [restartWaitLoop] at h
    by_cases hr : (o.readDeplStatus n i).available = (o.readDeplStatus n i).replicas
    · simp [hr] at h; simp [← h, isPatchEv]
    · simp [hr, Option.map_eq_some'] at h
      rcases h with ⟨t0, ht0, ht⟩
      have := ih (i + 1) t0 ht0
      simp [← ht, isPatchEv, this]

/-- The per-deployment readiness loop only reads deployment statuses,
samples the abort predicate and sleeps. -/
theorem waitDeplReady_events (o : Oracle) (n : WorkloadName) :
    ∀ fuel readIdx abortIdx r,
      waitDeplReady o n fuel readIdx abortIdx = some r →
      ∀ e ∈ r.2.1, isPollEv e = true := by
  intro fuel
  induction fuel with
  | zero =>
    intro i a r h e he
    rw [waitDeplReady] at h
    by_cases h1 : (o.readDeplStatus n i).available = (o.readDeplStatus n i).replicas
    · simp [h1] at h
      rw [← h] at he
      simp at he
      simp [he, isPollEv]
    · by_cases h2 : o.shouldAbort a = true
      · simp [h1, h2] at h
        rw [← h] at he
        simp at he
        rcases he with h3 | h3 <;> simp [h3, isPollEv]
      · simp [h1, h2] at h
  | succ f ih =>
    intro i a r h e he
    rw [waitDeplReady] at h
    by_cases h1 : (o.readDeplStatus n i).available = (o.readDeplStatus n i).replicas
    · simp [h1] at h
      subst h
      simp at he
      simp [he, isPollEv]
    · by_cases h2 : o.shouldAbort a = true
      · simp [h1, h2] at h
        subst h
        simp at he
        rcases he with h3 | h3 <;> simp [h3, isPollEv]
      · cases hw2 : waitDeplReady o n f (i + 1) (a + 1) with
        | none => simp [h1, h2, hw2] at h
        | some r0 =>
          simp [h1, h2, hw2] at h
          subst h
          simp at he
          rcases he with h3 | h3 | h3 | h3
          · simp [h3, isPollEv]
          · simp [h3, isPollEv]
          · simp [h3, isPollEv]
          · exact ih (i + 1) (a + 1) r0 hw2 e h3

/-- The whole readiness phase only reads deployment statuses, samples
the abort predicate and sleeps. -/
theorem waitAllReady_events (o : Oracle) :
    ∀ l fuel abortIdx r, waitAllReady o l fuel abortIdx = some r →
      ∀ e ∈ r.2, isPollEv e = true := by
  intro l
  induction l with
  | nil =>
    intro fuel a r h e he
    simp [waitAllReady] at h
    subst h
    simp at he
  | cons n ns ih =>
    intro fuel a r h e he
    rw [waitAllReady] at h
    cases hw : waitDeplReady o n fuel 0 a with
    | none => rw [hw] at h; simp at h
    | some w =>
      rw [hw] at h
      rcases w with ⟨ab, t, a2⟩
      cases ab with
      | true =>
        simp at h
        subst h
        exact waitDeplReady_events o n fuel 0 a _ hw e he
      | false =>
        cases hw2 : waitAllReady o ns fuel a2 with
        | none => simp [hw2] at h
        | some r0 =>
          simp [hw2] at h
          subst h
          rcases List.mem_append.mp he with h3 | h3
          · exact waitDeplReady_events o n fuel 0 a _ hw e h3
          · exact ih fuel a2 r0 hw2 e h3

/-- When every deployment reports ready on its first status read, the
per-deployment loop exits at once with a single read event and an
untouched abort counter. -/
theorem waitDeplReady_first_ready (o : Oracle) (n : WorkloadName)
    (fuel readIdx abortIdx : Nat)
    (h : (o.readDeplStatus n readIdx).available
        = (o.readDeplStatus n readIdx).replicas) :
    waitDeplReady o n fuel readIdx abortIdx
      = some (false, [.readDepl n], abortIdx) := by
  rw [waitDeplReady.eq_def]
  simp [h]

/-- When every deployment reports ready on its first status read, the
readiness phase is exactly one status read per deployment, in order,
with no abort sample. -/
theorem waitAllReady_first_ready (o : Oracle)
    (h : ∀ n, (o.readDeplStatus n 0).available
        = (o.readDeplStatus n 0).replicas) :
    ∀ l fuel abortIdx, waitAllReady o l fuel abortIdx
      = some (false, l.map Ev.readDepl) := by
  intro l
  induction l with
  | nil => intro fuel a; rfl
  | cons n ns ih =>
    intro fuel a
    rw [waitAllReady, waitDeplReady_first_ready o n fuel 0 a (h n)]
    simp [ih fuel a]

/-- When the abort predicate fires on its first sample and the first
polled deployment is not ready on its first read, the readiness phase
stops right there: one read, one abort sample. -/
theorem waitAllReady_abort_first (o : Oracle) (n : WorkloadName)
    (ns : List WorkloadName) (fuel : Nat)
    (hnr : ¬ (o.readDeplStatus n 0).available
        = (o.readDeplStatus n 0).replicas)
    (hab : o.shouldAbort 0 = true) :
    waitAllReady o (n :: ns) fuel 0
      = some (true, [.readDepl n, .abortCheck]) := by
  rw [waitAllReady, waitDeplReady.eq_def]
  simp [hnr, hab]

/-- The trace produced by `launch` when the namespace became active and
every submission succeeded: provisioning trace, internal deployment
creations, internal service creations, user deployment creations, user
service creations, then the readiness phase. -/
theorem launch_eq (o : Oracle) (ty : SessionType) (cfg : SessionConfig)
    (fuel : Nat)
    (hns : (create_session_k8s_namespace o true).1 = .ok ())
    (hd : ∀ n, o.createDeployment n = .ok ())
    (hs : ∀ n, o.createService n = .ok ()) :
    launch o ty cfg fuel =
      (waitAllReady o
        (userDeploymentManifests ty cfg ++ orchestDeploymentManifests ty cfg)
        fuel 0).map
        (fun r => (.ok (),
          (create_session_k8s_namespace o true).2
            ++ (orchestDeploymentManifests ty cfg).map Ev.createDepl
            ++ (orchestServiceManifests ty).map Ev.createSvc
            ++ (userDeploymentManifests ty cfg).map Ev.createDepl
            ++ (userServiceManifests ty cfg).map Ev.createSvc
            ++ r.2)) := by
  have hty : ty = .interactive ∨ ty = .noninteractive := by
    cases ty
    · exact Or.inl rfl
    · exact Or.inr rfl
  have hC : ∀ l, createDepls o l = (.ok (), l.map Ev.createDepl) :=
    fun l => createDepls_all_ok o l (fun n _ => hd n)
  have hS : ∀ l, createSvcs o l = (.ok (), l.map Ev.createSvc) :=
    fun l => createSvcs_all_ok o l (fun n _ => hs n)
  rw [launch, hns, if_pos hty]
  simp only [hC, hS]
  cases hw : waitAllReady o
      (userDeploymentManifests ty cfg ++ orchestDeploymentManifests ty cfg)
      fuel 0 with
  | none => rfl
  | some w => rcases w with ⟨b, tw⟩; rfl

/-- Every event of the submission phase of `launch` (namespace
provisioning plus the four creation loops) is a namespace creation, a
namespace-status read, a 0.5-unit sleep, a deployment creation or a
service creation. -/
theorem submission_prefix_events (o : Oracle) (ty : SessionType)
    (cfg : SessionConfig) :
    ∀ e ∈ (create_session_k8s_namespace o true).2
        ++ (orchestDeploymentManifests ty cfg).map Ev.createDepl
        ++ (orchestServiceManifests ty).map Ev.createSvc
        ++ (userDeploymentManifests ty cfg).map Ev.createDepl
        ++ (userServiceManifests ty cfg).map Ev.createSvc,
      e = Ev.createNs ∨ e = Ev.readNs ∨ e = Ev.sleep (1/2)
        ∨ (∃ n, e = Ev.createDepl n) ∨ (∃ n, e = Ev.createSvc n) := by
  intro e he
  simp only [List.mem_append, List.mem_map] at he
  rcases he with ((((h | h) | h) | h) | h)
  · rcases create_ns_events o true e h with h2 | h2 | h2 <;> simp [h2]
  · rcases h with ⟨n, _, hn⟩
    exact Or.inr (Or.inr (Or.inr (Or.inl ⟨n, hn.symm⟩)))
  · rcases h with ⟨n, _, hn⟩
    exact Or.inr (Or.inr (Or.inr (Or.inr ⟨n, hn.symm⟩)))
  · rcases h with ⟨n, _, hn⟩
    exact Or.inr (Or.inr (Or.inr (Or.inl ⟨n, hn.symm⟩)))
  · rcases h with ⟨n, _, hn⟩
    exact Or.inr (Or.inr (Or.inr (Or.inr ⟨n, hn.symm⟩)))

/-- C2, counterexample: for the scenario config (one user service
`svc-a` with scope `{interactive, noninteractive}`, ports `[80]`) and an
interactive session, the compiled set has 3 k8s service manifests, not
the 4 the claim states — the session-sidecar, like the memory-server,
has no paired service. -/
theorem svcA_service_manifest_count_ne_four :
    (sessionServiceManifests .interactive svcAConfig).length ≠ 4 := by
  decide

/-- C2 (amended): for the scenario config and an interactive session,
the compiled workload set is exactly {memory-server, session-sidecar,
jupyter-enterprise-gateway, jupyter-server, svc-a}: 5 deployment
manifests and 3 service manifests, the memory-server and the
session-sidecar being the workloads with no paired service. -/
theorem svcA_compiled_workloads :
    sessionDeploymentManifests .interactive svcAConfig
      = [.memoryServer, .sessionSidecar, .jupyterEG, .jupyterServer,
         .user "svc-a"]
    ∧ sessionServiceManifests .interactive svcAConfig
      = [.jupyterEG, .jupyterServer, .user "svc-a"]
    ∧ (sessionDeploymentManifests .interactive svcAConfig).length = 5
    ∧ (sessionServiceManifests .interactive svcAConfig).length = 3 := by
  refine ⟨by decide, by decide, by decide, by decide⟩

/-- C6: for every session config, the compiled workload set of a
noninteractive session contains neither the notebook-kernel gateway nor
the notebook server, while an interactive session always contains both
(Invariant I2). -/
theorem noninteractive_excludes_jupyter (cfg : SessionConfig) :
    WorkloadName.jupyterEG ∉ sessionDeploymentManifests .noninteractive cfg
    ∧ WorkloadName.jupyterServer ∉ sessionDeploymentManifests .noninteractive cfg
    ∧ WorkloadName.jupyterEG ∈ sessionDeploymentManifests .interactive cfg
    ∧ WorkloadName.jupyterServer ∈ sessionDeploymentManifests .interactive cfg := by
  by_cases hcfg : cfg.services.isEmpty <;>
    simp [sessionDeploymentManifests, orchestDeploymentManifests,
          userDeploymentManifests, userServicesInScope, hcfg]

/-- C1, counterexample: for an interactive session with one in-scope
user service, `launch` creates the internal k8s services (the gateway
service sits at trace index 6) before the user-service deployment
(trace index 8), so it is not the case that every deployment submission
happens before every service-registration submission. -/
theorem launch_interleaves_user_deployment_after_service :
    (launch readyOracle .interactive svcAConfig 0).map
        (fun r => (r.2.get? 6, r.2.get? 8, deplsBeforeSvcs r.2))
      = some (some (.createSvc .jupyterEG),
              some (.createDepl (.user "svc-a")), false) := by
  decide

/-- C1 (amended): within one rollout, submissions happen in four waves —
internal deployments, then internal k8s services, then user
deployments, then user k8s services — and all of them happen before any
readiness poll; the two-wave form (all deployments before all services)
only holds when one of the middle waves is empty. -/
theorem launch_submission_order (o : Oracle) (ty : SessionType)
    (cfg : SessionConfig) (fuel : Nat) (res : Except Err Unit) (t : List Ev)
    (hns : (create_session_k8s_namespace o true).1 = .ok ())
    (hd : ∀ n, o.createDeployment n = .ok ())
    (hs : ∀ n, o.createService n = .ok ())
    (h : launch o ty cfg fuel = some (res, t)) :
    res = .ok ()
    ∧ ∃ tw, t = (create_session_k8s_namespace o true).2
        ++ (orchestDeploymentManifests ty cfg).map Ev.createDepl
        ++ (orchestServiceManifests ty).map Ev.createSvc
        ++ (userDeploymentManifests ty cfg).map Ev.createDepl
        ++ (userServiceManifests ty cfg).map Ev.createSvc
        ++ tw
      ∧ ∀ e ∈ tw, isPollEv e = true := by
  rw [launch_eq o ty cfg fuel hns hd hs] at h
  cases hw : waitAllReady o
      (userDeploymentManifests ty cfg ++ orchestDeploymentManifests ty cfg)
      fuel 0 with
  | none => rw [hw] at h; simp at h
  | some w =>
    rw [hw] at h
    simp at h
    refine ⟨h.1.symm, w.2, ?_, waitAllReady_events o _ fuel 0 w hw⟩
    simp only [List.append_assoc]
    exact h.2.symm

/-- Witness for the amended C1 theorem at a concrete run. -/
theorem launch_submission_order_witness :
    (Except.ok () : Except Err Unit) = .ok ()
    ∧ ∃ tw, ([.createNs, .readNs, .createDepl .memoryServer,
        .createDepl .sessionSidecar, .createDepl .jupyterEG,
        .createDepl .jupyterServer, .createSvc .jupyterEG,
        .createSvc .jupyterServer, .createDepl (.user "svc-a"),
        .createSvc (.user "svc-a"), .readDepl (.user "svc-a"),
        .readDepl .memoryServer, .readDepl .sessionSidecar,
        .readDepl .jupyterEG, .readDepl .jupyterServer] : List Ev)
          = (create_session_k8s_namespace readyOracle true).2
        ++ (orchestDeploymentManifests .interactive svcAConfig).map Ev.createDepl
        ++ (orchestServiceManifests .interactive).map Ev.createSvc
        ++ (userDeploymentManifests .interactive svcAConfig).map Ev.createDepl
        ++ (userServiceManifests .interactive svcAConfig).map Ev.createSvc
        ++ tw
      ∧ ∀ e ∈ tw, isPollEv e = true :=
  launch_submission_order readyOracle .interactive svcAConfig 0 (.ok ())
    [.createNs, .readNs, .createDepl .memoryServer,
     .createDepl .sessionSidecar, .createDepl .jupyterEG,
     .createDepl .jupyterServer, .createSvc .jupyterEG,
     .createSvc .jupyterServer, .createDepl (.user "svc-a"),
     .createSvc (.user "svc-a"), .readDepl (.user "svc-a"),
     .readDepl .memoryServer, .readDepl .sessionSidecar,
     .readDepl .jupyterEG, .readDepl .jupyterServer]
    rfl (fun _ => rfl) (fun _ => rfl) rfl

set_option maxRecDepth 8000 in
/-- C4, counterexample: a launch whose `should_abort` answers true on
its first invocation returns exactly the same value as a launch that
completed normally (`None`, here `.ok ()`), so the abort outcome is not
distinguishable by the caller from a normal successful completion. -/
theorem abort_outcome_equals_success_outcome :
    (launch abortingOracle .noninteractive svcAConfig 5).map Prod.fst
      = (launch readyOracle .noninteractive svcAConfig 0).map Prod.fst
    ∧ (launch abortingOracle .noninteractive svcAConfig 5).map Prod.fst
      = some (.ok ()) :=
  ⟨rfl, rfl⟩

/-- C4 (amended): when `should_abort` answers true on its first
invocation, `launch` returns immediately after the first not-ready
observation — before any deployment is required to be ready — it
deletes or rolls back nothing, but the return value is the plain
successful `None` (`.ok ()`), not a distinct aborted outcome. -/
theorem launch_abort_first_check (o : Oracle) (ty : SessionType)
    (cfg : SessionConfig) (fuel : Nat) (n₀ : WorkloadName)
    (rest : List WorkloadName)
    (hns : (create_session_k8s_namespace o true).1 = .ok ())
    (hd : ∀ n, o.createDeployment n = .ok ())
    (hs : ∀ n, o.createService n = .ok ())
    (hlist : userDeploymentManifests ty cfg ++ orchestDeploymentManifests ty cfg
      = n₀ :: rest)
    (hnr : ¬ (o.readDeplStatus n₀ 0).available = (o.readDeplStatus n₀ 0).replicas)
    (hab : o.shouldAbort 0 = true) :
    launch o ty cfg fuel = some (.ok (),
      (create_session_k8s_namespace o true).2
        ++ (orchestDeploymentManifests ty cfg).map Ev.createDepl
        ++ (orchestServiceManifests ty).map Ev.createSvc
        ++ (userDeploymentManifests ty cfg).map Ev.createDepl
        ++ (userServiceManifests ty cfg).map Ev.createSvc
        ++ [.readDepl n₀, .abortCheck])
    ∧ Ev.deleteNs ∉
      (create_session_k8s_namespace o true).2
        ++ (orchestDeploymentManifests ty cfg).map Ev.createDepl
        ++ (orchestServiceManifests ty).map Ev.createSvc
        ++ (userDeploymentManifests ty cfg).map Ev.createDepl
        ++ (userServiceManifests ty cfg).map Ev.createSvc
        ++ [.readDepl n₀, .abortCheck] := by
  constructor
  · rw [launch_eq o ty cfg fuel hns hd hs, hlist,
        waitAllReady_abort_first o n₀ rest fuel hnr hab]
    rfl
  · intro hmem
    rcases List.mem_append.mp hmem with hp | hlast
    · rcases submission_prefix_events o ty cfg _ hp with
        h2 | h2 | h2 | ⟨n, h2⟩ | ⟨n, h2⟩ <;> simp at h2
    · simp at hlast

/-- Witness for the amended C4 theorem at a concrete aborted run. -/
theorem launch_abort_first_check_witness :
    launch abortingOracle .noninteractive svcAConfig 5 = some (.ok (),
      (create_session_k8s_namespace abortingOracle true).2
        ++ (orchestDeploymentManifests .noninteractive svcAConfig).map Ev.createDepl
        ++ (orchestServiceManifests .noninteractive).map Ev.createSvc
        ++ (userDeploymentManifests .noninteractive svcAConfig).map Ev.createDepl
        ++ (userServiceManifests .noninteractive svcAConfig).map Ev.createSvc
        ++ [.readDepl (.user "svc-a"), .abortCheck])
    ∧ Ev.deleteNs ∉
      (create_session_k8s_namespace abortingOracle true).2
        ++ (orchestDeploymentManifests .noninteractive svcAConfig).map Ev.createDepl
        ++ (orchestServiceManifests .noninteractive).map Ev.createSvc
        ++ (userDeploymentManifests .noninteractive svcAConfig).map Ev.createDepl
        ++ (userServiceManifests .noninteractive svcAConfig).map Ev.createSvc
        ++ [.readDepl (.user "svc-a"), .abortCheck] :=
  launch_abort_first_check abortingOracle .noninteractive svcAConfig 5
    (.user "svc-a") [.memoryServer, .sessionSidecar]
    rfl (fun _ => rfl) (fun _ => rfl) rfl (by decide) rfl

/-- C10: when every deployment already reports
`available_replicas == spec.replicas` on its first status read, `launch`
returns success without ever invoking `should_abort` — the abort
predicate is only sampled after a not-ready observation. -/
theorem ready_first_read_skips_abort (o : Oracle) (ty : SessionType)
    (cfg : SessionConfig) (fuel : Nat)
    (hns : (create_session_k8s_namespace o true).1 = .ok ())
    (hd : ∀ n, o.createDeployment n = .ok ())
    (hs : ∀ n, o.createService n = .ok ())
    (hready : ∀ n, (o.readDeplStatus n 0).available
        = (o.readDeplStatus n 0).replicas) :
    launch o ty cfg fuel = some (.ok (),
      (create_session_k8s_namespace o true).2
        ++ (orchestDeploymentManifests ty cfg).map Ev.createDepl
        ++ (orchestServiceManifests ty).map Ev.createSvc
        ++ (userDeploymentManifests ty cfg).map Ev.createDepl
        ++ (userServiceManifests ty cfg).map Ev.createSvc
        ++ (userDeploymentManifests ty cfg
            ++ orchestDeploymentManifests ty cfg).map Ev.readDepl)
    ∧ Ev.abortCheck ∉
      (create_session_k8s_namespace o true).2
        ++ (orchestDeploymentManifests ty cfg).map Ev.createDepl
        ++ (orchestServiceManifests ty).map Ev.createSvc
        ++ (userDeploymentManifests ty cfg).map Ev.createDepl
        ++ (userServiceManifests ty cfg).map Ev.createSvc
        ++ (userDeploymentManifests ty cfg
            ++ orchestDeploymentManifests ty cfg).map Ev.readDepl := by
  constructor
  · rw [launch_eq o ty cfg fuel hns hd hs,
        waitAllReady_first_ready o hready _ fuel 0]
    rfl
  · intro hmem
    rcases List.mem_append.mp hmem with hp | hlast
    · rcases submission_prefix_events o ty cfg _ hp with
        h2 | h2 | h2 | ⟨n, h2⟩ | ⟨n, h2⟩ <;> simp at h2
    · simp [List.mem_map] at hlast

/-- Witness for the C10 theorem: the first-read-ready run skips the
abort predicate even though it would have answered true. -/
theorem ready_first_read_skips_abort_witness :
    launch readyAbortOracle .interactive svcAConfig 0 = some (.ok (),
      (create_session_k8s_namespace readyAbortOracle true).2
        ++ (orchestDeploymentManifests .interactive svcAConfig).map Ev.createDepl
        ++ (orchestServiceManifests .interactive).map Ev.createSvc
        ++ (userDeploymentManifests .interactive svcAConfig).map Ev.createDepl
        ++ (userServiceManifests .interactive svcAConfig).map Ev.createSvc
        ++ (userDeploymentManifests .interactive svcAConfig
            ++ orchestDeploymentManifests .interactive svcAConfig).map Ev.readDepl)
    ∧ Ev.abortCheck ∉
      (create_session_k8s_namespace readyAbortOracle true).2
        ++ (orchestDeploymentManifests .interactive svcAConfig).map Ev.createDepl
        ++ (orchestServiceManifests .interactive).map Ev.createSvc
        ++ (userDeploymentManifests .interactive svcAConfig).map Ev.createDepl
        ++ (userServiceManifests .interactive svcAConfig).map Ev.createSvc
        ++ (userDeploymentManifests .interactive svcAConfig
            ++ orchestDeploymentManifests .interactive svcAConfig).map Ev.readDepl :=
  ready_first_read_skips_abort readyAbortOracle .interactive svcAConfig 0
    rfl (fun _ => rfl) (fun _ => rfl) (fun _ => rfl)

/-- C3: on a platform where the session namespace does not exist (every
status read raises 404, and — per the collaborator contract of the spec
— the deletion request itself returns without error), `shutdown` and
`cleanup_resources` return success, for both values of
`wait_for_completion`. -/
theorem teardown_absent_namespace_ok (o : Oracle)
    (hdel : o.deleteNamespace = .ok ())
    (h404 : o.readNsStatus 0 = .apiError 404) :
    shutdown o true = (.ok (), [.deleteNs, .readNs])
    ∧ shutdown o false = (.ok (), [.deleteNs])
    ∧ cleanup_resources o true = (.ok (), [.deleteNs, .readNs])
    ∧ cleanup_resources o false = (.ok (), [.deleteNs]) := by
  have hloop : cleanupWaitLoop o 1000 0 = (.ok (), [.readNs]) := by
    show cleanupWaitLoop o (999 + 1) 0 = _
    rw [cleanupWaitLoop, h404]
    simp
  refine ⟨?_, ?_, ?_, ?_⟩ <;>
    simp [shutdown, cleanup_resources, hdel, hloop]

/-- Witness for the C3 theorem on a concrete absent-namespace
platform. -/
theorem teardown_absent_namespace_ok_witness :
    shutdown goneOracle true = (.ok (), [.deleteNs, .readNs])
    ∧ shutdown goneOracle false = (.ok (), [.deleteNs])
    ∧ cleanup_resources goneOracle true = (.ok (), [.deleteNs, .readNs])
    ∧ cleanup_resources goneOracle false = (.ok (), [.deleteNs]) :=
  teardown_absent_namespace_ok goneOracle rfl rfl

/-- The provisioning poll loop, on a read it retries on (a phase other
than `Active`, or a 404), sleeps 0.5 time units and polls again. -/
theorem nsWaitLoop_retry_step (o : Oracle) (fuel readIdx : Nat)
    (h : retryableRead (o.readNsStatus readIdx) = true) :
    nsWaitLoop o (fuel + 1) readIdx
      = ((nsWaitLoop o fuel (readIdx + 1)).1,
         .readNs :: .sleep (1/2) :: (nsWaitLoop o fuel (readIdx + 1)).2) := by
  rw [nsWaitLoop]
  cases hr : o.readNsStatus readIdx with
  | phase p =>
    rw [hr] at h
    simp [retryableRead] at h
    simp [h]
  | apiError s =>
    rw [hr] at h
    simp [retryableRead] at h
    simp [h]

/-- The provisioning poll loop exits successfully the instant a read
reports `Active`, with no further sleep or read. -/
theorem nsWaitLoop_active (o : Oracle) (fuel readIdx : Nat)
    (h : o.readNsStatus readIdx = .phase "Active") :
    nsWaitLoop o (fuel + 1) readIdx = (.ok (), [.readNs]) := by
  rw [nsWaitLoop, h]
  simp

/-- C5: when the first two namespace-status reads are retryable and the
third reports `Active`, provisioning returns success after exactly two
0.5-unit sleeps (reads at 0, 0.5 and 1.0 time units), with no further
sleep or read after the `Active` observation. -/
theorem provision_active_on_third_read (o : Oracle)
    (hc : o.createNamespace = .ok ())
    (h0 : retryableRead (o.readNsStatus 0) = true)
    (h1 : retryableRead (o.readNsStatus 1) = true)
    (h2 : o.readNsStatus 2 = .phase "Active") :
    create_session_k8s_namespace o true
      = (.ok (), [.createNs, .readNs, .sleep (1/2), .readNs, .sleep (1/2),
                  .readNs]) := by
  have e2 : nsWaitLoop o 118 2 = (.ok (), [.readNs]) := by
    have h3 := nsWaitLoop_active o 117 2 h2
    norm_num at h3
    exact h3
  have e1 : nsWaitLoop o 119 1
      = (.ok (), [.readNs, .sleep (1/2), .readNs]) := by
    have h3 := nsWaitLoop_retry_step o 118 1 h1
    norm_num at h3
    rw [e2] at h3
    exact h3
  have e0 : nsWaitLoop o 120 0
      = (.ok (), [.readNs, .sleep (1/2), .readNs, .sleep (1/2), .readNs]) := by
    have h3 := nsWaitLoop_retry_step o 119 0 h0
    norm_num at h3
    rw [e1] at h3
    exact h3
  unfold create_session_k8s_namespace
  rw [hc]
  simp [e0]

/-- Witness for the C5 theorem on a platform that reports `Pending`
twice and then `Active`. -/
theorem provision_active_on_third_read_witness :
    create_session_k8s_namespace pendingOracle true
      = (.ok (), [.createNs, .readNs, .sleep (1/2), .readNs, .sleep (1/2),
                  .readNs]) :=
  provision_active_on_third_read pendingOracle rfl (by decide) (by decide) rfl

/-- C7: whatever the outcomes of `launch` and of the caller's body —
normal return, an error raised by the body, or an error raised by
`launch` itself — every completed run of the scoped helper ends with
the `shutdown` trace, which opens with the namespace deletion. -/
theorem scoped_session_always_shuts_down (o : Oracle)
    (cfg : SessionConfig) (fuel : Nat) (body : Except Err Unit)
    (res : Except Err Unit) (t : List Ev)
    (h : launch_noninteractive_session o cfg fuel body = some (res, t)) :
    (∃ tl, t = tl ++ (shutdown o false).2) ∧ Ev.deleteNs ∈ t := by
  unfold launch_noninteractive_session at h
  cases hl : launch o .noninteractive cfg fuel with
  | none => rw [hl] at h; simp at h
  | some w =>
    rw [hl] at h
    rcases w with ⟨rl, tl⟩
    simp at h
    obtain ⟨h1, h2⟩ := h
    constructor
    · exact ⟨tl, h2.symm⟩
    · rcases cleanup_resources_head o false with ⟨t2, ht2⟩
      rw [← h2]
      apply List.mem_append_right
      show Ev.deleteNs ∈ (cleanup_resources o false).2
      rw [ht2]
      exact List.mem_cons_self _ _

/-- Witness for the C7 theorem at a concrete completed run. -/
theorem scoped_session_always_shuts_down_witness :
    (∃ tl, ([.createNs, .readNs, .createDepl .memoryServer,
        .createDepl .sessionSidecar, .createDepl (.user "svc-a"),
        .createSvc (.user "svc-a"), .readDepl (.user "svc-a"),
        .readDepl .memoryServer, .readDepl .sessionSidecar,
        .deleteNs] : List Ev) = tl ++ (shutdown readyOracle false).2)
    ∧ Ev.deleteNs ∈ ([.createNs, .readNs, .createDepl .memoryServer,
        .createDepl .sessionSidecar, .createDepl (.user "svc-a"),
        .createSvc (.user "svc-a"), .readDepl (.user "svc-a"),
        .readDepl .memoryServer, .readDepl .sessionSidecar,
        .deleteNs] : List Ev) :=
  scoped_session_always_shuts_down readyOracle svcAConfig 0 (.ok ())
    (.ok ())
    [.createNs, .readNs, .createDepl .memoryServer,
     .createDepl .sessionSidecar, .createDepl (.user "svc-a"),
     .createSvc (.user "svc-a"), .readDepl (.user "svc-a"),
     .readDepl .memoryServer, .readDepl .sessionSidecar, .deleteNs]
    rfl

/-- C8: on a platform where both scale patches go through,
`restart_session_service` first reads the workload's status, issues
exactly two scale updates — to 0, then back to the replica count the
read reported — in that order and no others, regardless of the
wait-for-readiness flag. -/
theorem restart_two_scale_updates (o : Oracle) (n : WorkloadName)
    (w : Bool) (fuel : Nat) (res : Except Err Unit) (t : List Ev)
    (h0 : o.patchScale n (some 0) = .ok ())
    (h1 : o.patchScale n ((o.readDeplStatus n 0).replicas) = .ok ())
    (h : restart_session_service o n w fuel = some (res, t)) :
    res = .ok ()
    ∧ t.head? = some (.readDepl n)
    ∧ t.filter isPatchEv = [.patchScale n (some 0),
        .patchScale n ((o.readDeplStatus n 0).replicas)] := by
  rw [restart_session_service] at h
  simp only [h0, h1] at h
  cases w with
  | false =>
    simp at h
    obtain ⟨hr, ht⟩ := h
    rw [← ht]
    exact ⟨hr.symm, rfl, by simp [isPatchEv]⟩
  | true =>
    simp only [if_pos] at h
    cases hw : restartWaitLoop o n fuel 1 with
    | none => rw [hw] at h; simp at h
    | some tw =>
      rw [hw] at h
      simp at h
      obtain ⟨hr, ht⟩ := h
      rw [← ht]
      refine ⟨hr.symm, rfl, ?_⟩
      simp [isPatchEv, restartWaitLoop_no_patches o n fuel 1 tw hw]

/-- Witness for the C8 theorem: a workload with desired replica count 1
gets exactly the two scale updates 0 and 1. -/
theorem restart_two_scale_updates_witness :
    (Except.ok () : Except Err Unit) = .ok ()
    ∧ ([.readDepl .memoryServer, .patchScale .memoryServer (some 0),
        .patchScale .memoryServer (some 1),
        .readDepl .memoryServer] : List Ev).head?
      = some (.readDepl .memoryServer)
    ∧ ([.readDepl .memoryServer, .patchScale .memoryServer (some 0),
        .patchScale .memoryServer (some 1),
        .readDepl .memoryServer] : List Ev).filter isPatchEv
      = [.patchScale .memoryServer (some 0),
         .patchScale .memoryServer
           ((readyOracle.readDeplStatus .memoryServer 0).replicas)] :=
  restart_two_scale_updates readyOracle .memoryServer true 0 (.ok ())
    [.readDepl .memoryServer, .patchScale .memoryServer (some 0),
     .patchScale .memoryServer (some 1), .readDepl .memoryServer]
    rfl rfl rfl

/-- C9: the busy-kernel query issues exactly one request, with a
2-time-unit timeout and no retry, and returns true precisely when some
returned kernel record has execution state `busy` (so false on an empty
sequence). -/
theorem busy_kernels_single_request (o : Oracle) (ks : List Kernel)
    (h : o.httpGet = .ok ks) :
    ∃ b, has_busy_kernels o = (.ok b, [.httpGet 2])
      ∧ (b = true ↔ ∃ k ∈ ks, k.execution_state = some "busy") := by
  refine ⟨ks.any (fun k => k.execution_state = some "busy"), ?_, ?_⟩
  · unfold has_busy_kernels
    rw [h]
  · simp [List.any_eq_true]

/-- Witness for the C9 theorem on a response with one idle and one busy
kernel. -/
theorem busy_kernels_single_request_witness :
    ∃ b, has_busy_kernels busyOracle = (.ok b, [.httpGet 2])
      ∧ (b = true ↔ ∃ k ∈ [(⟨some "idle"⟩ : Kernel), ⟨some "busy"⟩],
          k.execution_state = some "busy") :=
  busy_kernels_single_request busyOracle [⟨some "idle"⟩, ⟨some "busy"⟩] rfl

end Sessions
